import Mathlib

/-!
Verification of the timeline-ruler widget (`src/AdornedRulerPanel.cpp`).

Times are modelled as rationals (the source uses `double` seconds) and
pixel coordinates as integers.  External collaborators that are not part
of this translation unit (the view transform, the snap manager, the
`PlayRegion` and `SelectedRegion` classes of `ViewInfo`, the scrubber and
the transport) are modelled from the specification's description of their
interfaces, or passed in as function parameters.  Everything else is a
direct translation of the functions in the source file.
-/

namespace AdornedRuler

abbrev Time := ℚ
abbrev Pixel := ℤ

/-- Tolerance constant from the source: `#define SELECT_TOLERANCE_PIXEL 4`. -/
def SELECT_TOLERANCE_PIXEL : Pixel := 4

/-- Modelled from the spec: the `PlayRegion` class of `ViewInfo` (not part of
this translation unit).  It carries the two bound times, which may be the
negative sentinel meaning unset, and the active flag. -/
structure PlayRegion where
  start : Time
  stop : Time
  active : Bool
deriving DecidableEq

/-- Modelled from the spec: a region is empty iff `end - start <= 0`. -/
def PlayRegion.Empty (r : PlayRegion) : Bool :=
  decide (r.stop - r.start ≤ 0)

/-- Modelled from the spec: `Order()` normalizes the two bounds by a swap
when they are reversed, so that `start <= end` afterwards. -/
def PlayRegion.Order (r : PlayRegion) : PlayRegion :=
  if r.stop < r.start then { r with start := r.stop, stop := r.start } else r

/-- Modelled from the spec: `SetTimes` assigns both bounds. -/
def PlayRegion.SetTimes (r : PlayRegion) (a b : Time) : PlayRegion :=
  { r with start := a, stop := b }

/-- Modelled from the spec: `SetStart` assigns the start bound. -/
def PlayRegion.SetStart (r : PlayRegion) (a : Time) : PlayRegion :=
  { r with start := a }

/-- Modelled from the spec: `SetEnd` assigns the end bound. -/
def PlayRegion.SetEnd (r : PlayRegion) (b : Time) : PlayRegion :=
  { r with stop := b }

/-- Modelled from the spec: `SetActive` assigns the active flag. -/
def PlayRegion.SetActive (r : PlayRegion) (a : Bool) : PlayRegion :=
  { r with active := a }

/-- Modelled from the spec: the selection interval of the selection model. -/
structure SelectedRegion where
  t0 : Time
  t1 : Time
deriving DecidableEq

/-- Translation of `AdornedRulerPanel::IsWithinMarker`.  The view transform
`Time2Pos` is an external collaborator and is passed as a function. -/
def IsWithinMarker (time2Pos : Time → Pixel) (mousePosX : Pixel)
    (markerTime : Time) : Bool :=
  if markerTime < 0 then false
  else
    let pixelPos := time2Pos markerTime
    let boundLeft := pixelPos - SELECT_TOLERANCE_PIXEL
    let boundRight := pixelPos + SELECT_TOLERANCE_PIXEL
    decide (boundLeft ≤ mousePosX) && decide (mousePosX < boundRight)

/-- C9: a negative marker time (the unset sentinel) never hit-tests as a
marker, and for a nonnegative marker time the test is the half-open pixel
window of width twice the tolerance around the marker's pixel position. -/
theorem isWithinMarker_negative_and_window (time2Pos : Time → Pixel)
    (x : Pixel) (m : Time) :
    (m < 0 → IsWithinMarker time2Pos x m = false) ∧
    (0 ≤ m → (IsWithinMarker time2Pos x m = true ↔
      time2Pos m - SELECT_TOLERANCE_PIXEL ≤ x ∧
        x < time2Pos m + SELECT_TOLERANCE_PIXEL)) := by
  constructor
  · intro h
    simp [IsWithinMarker, h]
  · intro h
    have h' : ¬ m < 0 := not_lt.mpr h
    simp [IsWithinMarker, h']

/-- Witness for C9 at concrete inputs. -/
theorem isWithinMarker_negative_and_window_witness :
    IsWithinMarker (fun t => t.num) 5 (-1) = false ∧
    (IsWithinMarker (fun t => t.num) 5 3 = true ↔
      ((3 : ℚ).num - SELECT_TOLERANCE_PIXEL ≤ 5 ∧
        (5 : ℤ) < (3 : ℚ).num + SELECT_TOLERANCE_PIXEL)) :=
  ⟨(isWithinMarker_negative_and_window (fun t => t.num) 5 (-1)).1 (by norm_num),
   (isWithinMarker_negative_and_window (fun t => t.num) 5 3).2 (by norm_num)⟩

/-! ## Overlay models

`ScrubbingRulerOverlay` tracks the indicator pixel position (-1 meaning
hidden) and the scrub and seek shape flags; `TrackPanelGuidelineOverlay`
tracks the indicator position, the snapped flag and the previewing-scrub
flag.  Both keep an old (last drawn) copy for dirty-rectangle diffing. -/

/-- Tracked fields of `ScrubbingRulerOverlay` (both the new and the old
copies have this shape). -/
structure ScrubRulerIndicator where
  pos : Pixel
  scrub : Bool
  seek : Bool
deriving DecidableEq

/-- Flags read from the external `Scrubber` collaborator. -/
structure ScrubberFlags where
  isScrubbing : Bool
  isSpeedPlaying : Bool
  isKeyboardScrubbing : Bool
  hasMark : Bool
  seeks : Bool
  temporarilySeeks : Bool
deriving DecidableEq

/-- Translation of `ScrubbingRulerOverlay::Update`.  `lastCell` is whether
the pointer is in some cell of the ruler, `target` whether some other drag
in the ruler is in progress, and `st` is the previous value of the new
state, whose scrub and seek fields survive when only the position is
assigned. -/
def scrubbingRulerOverlayUpdate (sc : ScrubberFlags)
    (lastCell audioActive : Bool) (trackEnd sel1 quickPlayPos : Time)
    (time2Pos : Time → Pixel) (target lastCellIsScrubbingCell : Bool)
    (st : ScrubRulerIndicator) : ScrubRulerIndicator :=
  let scrubbing := sc.isScrubbing && !sc.isSpeedPlaying &&
    !sc.isKeyboardScrubbing
  if (!lastCell || audioActive) && !scrubbing then
    { st with pos := -1 }
  else
    let latestEnd := max trackEnd sel1
    if quickPlayPos ≥ latestEnd then
      { st with pos := -1 }
    else
      let newScrub := !target && (lastCellIsScrubbingCell || sc.hasMark)
      let newSeek := newScrub && (sc.seeks || sc.temporarilySeeks)
      { pos := time2Pos quickPlayPos, scrub := newScrub, seek := newSeek }

/-- Dirty test of `ScrubbingRulerOverlay::DoGetRectangle`: when the old
indicator was visible, compare position and both shape flags; when it was
hidden, redraw exactly when the new position is visible. -/
def scrubbingRulerOverlayDirty (old new : ScrubRulerIndicator) : Bool :=
  if 0 ≤ old.pos then
    decide (old.pos ≠ new.pos) || decide (old.scrub ≠ new.scrub) ||
      decide (old.seek ≠ new.seek)
  else
    decide (0 ≤ new.pos)

/-- Tracked fields of `TrackPanelGuidelineOverlay`. -/
structure GuidelineState where
  pos : Pixel
  snapped : Bool
  previewingScrub : Bool
deriving DecidableEq

/-- Dirty test of `TrackPanelGuidelineOverlay::DoGetRectangle`: any tracked
field differing between the old copy and the newly computed state. -/
def guidelineOverlayDirty (old new : GuidelineState) : Bool :=
  decide (old.pos ≠ new.pos) || decide (old.snapped ≠ new.snapped) ||
    decide (old.previewingScrub ≠ new.previewingScrub)

/-- C8: for both overlays, the dirty flag is true only when at least one
tracked field of the newly computed state differs from the last drawn
state; if every tracked field is unchanged, no redraw is requested. -/
theorem overlay_dirty_requires_change (o n : ScrubRulerIndicator)
    (go gn : GuidelineState) :
    (scrubbingRulerOverlayDirty o n = true →
      ¬ (n.pos = o.pos ∧ n.scrub = o.scrub ∧ n.seek = o.seek)) ∧
    (guidelineOverlayDirty go gn = true →
      ¬ (gn.pos = go.pos ∧ gn.snapped = go.snapped ∧
          gn.previewingScrub = go.previewingScrub)) := by
  constructor
  · intro hd ⟨hp, hs, hk⟩
    unfold scrubbingRulerOverlayDirty at hd
    by_cases h : 0 ≤ o.pos
    · simp [h, hp, hs, hk] at hd
    · simp [h] at hd
      exact h (hp ▸ hd)
  · intro hd ⟨hp, hs, hk⟩
    simp [guidelineOverlayDirty, hp, hs, hk] at hd

/-- Witness for C8 at concrete overlay states with the dirty flag set. -/
theorem overlay_dirty_requires_change_witness :
    ¬ ((6 : Pixel) = 5 ∧ false = false ∧ false = false) ∧
    ¬ ((0 : Pixel) = 0 ∧ true = false ∧ false = false) :=
  ⟨(overlay_dirty_requires_change ⟨5, false, false⟩ ⟨6, false, false⟩
      ⟨0, false, false⟩ ⟨0, true, false⟩).1 (by decide),
   (overlay_dirty_requires_change ⟨5, false, false⟩ ⟨6, false, false⟩
      ⟨0, false, false⟩ ⟨0, true, false⟩).2 (by decide)⟩

/-- C10: whenever the quick-play time is at or beyond the later of the
tracks' end time and the selection's end, `Update` hides the indicator
(position -1), regardless of pointer location, audio activity, or
scrubbing state. -/
theorem scrubRuler_indicator_hidden_at_end (sc : ScrubberFlags)
    (lastCell audioActive : Bool) (trackEnd sel1 quickPlayPos : Time)
    (time2Pos : Time → Pixel) (target lastCellIsScrubbingCell : Bool)
    (st : ScrubRulerIndicator)
    (h : max trackEnd sel1 ≤ quickPlayPos) :
    (scrubbingRulerOverlayUpdate sc lastCell audioActive trackEnd sel1
      quickPlayPos time2Pos target lastCellIsScrubbingCell st).pos = -1 := by
  unfold scrubbingRulerOverlayUpdate
  dsimp only
  split <;> simp [h]

/-- Witness for C10: pointer in the ruler, audio inactive, yet the
indicator is hidden because the quick-play time reaches the track end. -/
theorem scrubRuler_indicator_hidden_at_end_witness :
    (scrubbingRulerOverlayUpdate
      ⟨false, false, false, false, false, false⟩ true false 3 4 5
      (fun t => t.num) false false ⟨0, false, false⟩).pos = -1 :=
  scrubRuler_indicator_hidden_at_end
    ⟨false, false, false, false, false, false⟩ true false 3 4 5
    (fun t => t.num) false false ⟨0, false, false⟩ (by norm_num)

/-! ## Transport start policy: `AdornedRulerPanel::StartQPPlay` -/

/-- Playback modes of the external transport that `StartQPPlay` selects
among. -/
inductive PlayMode where
  | normalPlay
  | loopedPlay
  | cutPreviewPlay
deriving DecidableEq

/-- The playback request issued by `StartQPPlay`: effective bounds, final
looped flag, chosen mode, whether the start-time hint (`pStartTime`) is
passed in the options, and the play region as redisplayed while playing. -/
structure QPPlayCall where
  start : Time
  stop : Time
  looped : Bool
  mode : PlayMode
  usesStartTimeHint : Bool
  regionAfter : PlayRegion
deriving DecidableEq

/-- Translation of `AdornedRulerPanel::StartQPPlay`.  Returns `none` when
playback is not started (region start negative); the transport stop and
redraw side effects carry no state here.

Source line 1738 declares `bool looped = (loopEnabled && looped);` inside
the function.  By the point-of-declaration rule the initializer's `looped`
names the newly declared, still-uninitialized block-scope variable, not
the function parameter, so when `loopEnabled` holds the flag's value is an
indeterminate read; only when `loopEnabled` is false does the `&&`
short-circuit give a well-defined `false`.  The indeterminate read is
modelled by the extra oracle argument `uninitRead`: every execution the
written code permits corresponds to some value of it, and the `looped`
parameter itself is consumed only earlier, at line 1719's empty-region
test. -/
def StartQPPlay (t0 t1 sel0 sel1 : Time) (r : PlayRegion)
    (looped cutPreview : Bool) (uninitRead : Bool) : Option QPPlayCall :=
  let startPlaying := decide (0 ≤ r.start)
  if startPlaying then
    let se : Time × Time :=
      if r.Empty && looped then
        if sel0 < r.start ∧ r.start < sel1 then (sel0, sel1) else (t0, t1)
      else (r.start, r.stop)
    let start := se.1
    let stop := se.2
    let loopEnabled := decide (stop - start > 1 / 1000)
    let looped2 := loopEnabled && uninitRead
    let cutPreview2 := if looped2 then false else cutPreview
    let mode :=
      if cutPreview2 then PlayMode.cutPreviewPlay
      else if looped2 then PlayMode.loopedPlay
      else PlayMode.normalPlay
    some { start := start, stop := stop, looped := looped2, mode := mode,
           usesStartTimeHint := !cutPreview2,
           regionAfter := r.SetTimes start stop }
  else none

/-- C1 counterexample: with `looped = true` and `cutPreview = true` on a
nonempty region of span 1, the execution in which the indeterminate read
of line 1738 yields `true` (a value the written code permits) chooses
`loopedPlay`, not `cutPreviewPlay`, so the code does not guarantee the
claimed cutPreview priority. -/
theorem startQPPlay_cutPreview_counterexample :
    StartQPPlay 0 10 0 0 ⟨0, 1, false⟩ true true true =
      some { start := 0, stop := 1, looped := true,
             mode := PlayMode.loopedPlay, usesStartTimeHint := true,
             regionAfter := ⟨0, 1, false⟩ } ∧
    PlayMode.loopedPlay ≠ PlayMode.cutPreviewPlay := by
  constructor
  · norm_num [StartQPPlay, PlayRegion.Empty, PlayRegion.SetTimes]
  · decide

/-- C1 (amended): whenever playback starts, the mode is decided by
cutPreview and the block-scope looped flag of line 1738, which is false
when the effective span is at most 0.001 and otherwise carries the
indeterminate value of the uninitialized read, independent of the looped
parameter: `loopedPlay` exactly when that read is true and the span
exceeds 0.001; `cutPreviewPlay` exactly when cut preview was requested and
the flag is not in effect; `normalPlay` otherwise.  In particular,
cutPreview is guaranteed to force `cutPreviewPlay` only when the effective
span is at most 0.001. -/
theorem startQPPlay_mode_priority_amended (t0 t1 sel0 sel1 : Time)
    (r : PlayRegion) (looped cutPreview uninitRead : Bool)
    (h : 0 ≤ r.start) :
    ∃ c, StartQPPlay t0 t1 sel0 sel1 r looped cutPreview uninitRead =
        some c ∧
      (c.mode = PlayMode.loopedPlay ↔
        uninitRead = true ∧ 1 / 1000 < c.stop - c.start) ∧
      (c.mode = PlayMode.cutPreviewPlay ↔
        cutPreview = true ∧
          ¬ (uninitRead = true ∧ 1 / 1000 < c.stop - c.start)) ∧
      (c.mode = PlayMode.normalPlay ↔
        cutPreview = false ∧
          ¬ (uninitRead = true ∧ 1 / 1000 < c.stop - c.start)) := by
  unfold StartQPPlay
  rw [if_pos (by simpa using h)]
  refine ⟨_, rfl, ?_⟩
  dsimp only
  split
  case isTrue hb =>
    split
    case isTrue hin =>
      by_cases hsp : (1 : ℚ) / 1000 < sel1 - sel0
      · simp only [decide_eq_true (show sel1 - sel0 > 1 / 1000 from hsp),
          Bool.true_and, reduceIte]
        cases uninitRead <;> cases cutPreview <;> simp [hsp] <;>
          (try simp_all) <;> (try constructor) <;> intros <;> linarith
      · simp only [decide_eq_false (show ¬ sel1 - sel0 > 1 / 1000 from hsp),
          Bool.false_and, reduceIte]
        cases uninitRead <;> cases cutPreview <;> simp [hsp] <;>
          (try simp_all) <;> (try constructor) <;> intros <;> linarith
    case isFalse hin =>
      by_cases hsp : (1 : ℚ) / 1000 < t1 - t0
      · simp only [decide_eq_true (show t1 - t0 > 1 / 1000 from hsp),
          Bool.true_and, reduceIte]
        cases uninitRead <;> cases cutPreview <;> simp [hsp] <;>
          (try simp_all) <;> (try constructor) <;> intros <;> linarith
      · simp only [decide_eq_false (show ¬ t1 - t0 > 1 / 1000 from hsp),
          Bool.false_and, reduceIte]
        cases uninitRead <;> cases cutPreview <;> simp [hsp] <;>
          (try simp_all) <;> (try constructor) <;> intros <;> linarith
  case isFalse hb =>
    by_cases hsp : (1 : ℚ) / 1000 < r.stop - r.start
    · simp only [decide_eq_true (show r.stop - r.start > 1 / 1000 from hsp),
        Bool.true_and, reduceIte]
      cases uninitRead <;> cases cutPreview <;> simp [hsp] <;>
        (try simp_all) <;> (try constructor) <;> intros <;> linarith
    · simp only [decide_eq_false (show ¬ r.stop - r.start > 1 / 1000 from hsp),
        Bool.false_and, reduceIte]
      cases uninitRead <;> cases cutPreview <;> simp [hsp] <;>
        (try simp_all) <;> (try constructor) <;> intros <;> linarith

/-- Witness for C1's amended theorem at the counterexample's inputs. -/
theorem startQPPlay_mode_priority_amended_witness :
    ∃ c, StartQPPlay 0 10 0 0 ⟨0, 1, false⟩ true true true = some c ∧
      (c.mode = PlayMode.loopedPlay ↔
        true = true ∧ 1 / 1000 < c.stop - c.start) ∧
      (c.mode = PlayMode.cutPreviewPlay ↔
        true = true ∧ ¬ (true = true ∧ 1 / 1000 < c.stop - c.start)) ∧
      (c.mode = PlayMode.normalPlay ↔
        true = false ∧ ¬ (true = true ∧ 1 / 1000 < c.stop - c.start)) :=
  startQPPlay_mode_priority_amended 0 10 0 0 ⟨0, 1, false⟩ true true true
    (by norm_num)

/-- C4 (code bug at source line 1738): in the spec's loop-a-point scenario
(empty region at 3 inside selection 2..4, track 0..10, looped requested)
the effective span is the selection 2..4 as claimed, but the final looped
flag is the block-scope `looped` whose initializer reads the newly
declared uninitialized variable, so looping is not determinately enabled:
the two possible values of the indeterminate read give a non-looped and a
looped playback respectively. -/
theorem startQPPlay_loop_point_indeterminate :
    StartQPPlay 0 10 2 4 ⟨3, 3, false⟩ true false false =
      some { start := 2, stop := 4, looped := false,
             mode := PlayMode.normalPlay, usesStartTimeHint := true,
             regionAfter := ⟨2, 4, false⟩ } ∧
    StartQPPlay 0 10 2 4 ⟨3, 3, false⟩ true false true =
      some { start := 2, stop := 4, looped := true,
             mode := PlayMode.loopedPlay, usesStartTimeHint := true,
             regionAfter := ⟨2, 4, false⟩ } := by
  constructor <;>
    norm_num [StartQPPlay, PlayRegion.Empty, PlayRegion.SetTimes]

/-! ## Release validity policy: `AdornedRulerPanel::HandleQPRelease` -/

/-- The clearing decision of `HandleQPRelease`, applied to the region after
`Order()`.  The source nests the selection test inside the shift-and-empty
branch, so the two `else if` rules are skipped whenever shift is held on an
empty region, even when their guards would hold. -/
def HandleQPReleaseClears (shiftDown : Bool) (t0 t1 sel0 sel1 : Time)
    (r : PlayRegion) : Bool :=
  if shiftDown && r.Empty then
    if (sel1 < t0 ∨ sel0 > t1) ∧ (r.start < t0 ∨ r.start > t1) then true
    else false
  else if r.start ≥ t1 then true
  else if r.stop - r.start > 0 ∧ r.stop < t0 then true
  else false

/-- Region effect of the release validity policy: order the region, then
clear it (both bounds to the -1 sentinel) when the clearing decision
fires, else leave it standing. -/
def HandleQPReleaseRegion (shiftDown : Bool) (t0 t1 sel0 sel1 : Time)
    (r : PlayRegion) : PlayRegion :=
  let r2 := r.Order
  if HandleQPReleaseClears shiftDown t0 t1 sel0 sel1 r2 then
    r2.SetTimes (-1) (-1)
  else r2

/-- The clearing condition as the claim words it: a flat else-if chain in
which the second and third rules apply whenever the full first condition
(shift, empty, selection outside, start outside) fails. -/
def specClearsFlat (shiftDown : Bool) (t0 t1 sel0 sel1 : Time)
    (r : PlayRegion) : Bool :=
  if shiftDown = true ∧ r.Empty = true ∧
      ((sel1 < t0 ∨ sel0 > t1) ∧ (r.start < t0 ∨ r.start > t1)) then true
  else if r.start ≥ t1 then true
  else if r.stop - r.start > 0 ∧ r.stop < t0 then true
  else false

/-- C2 counterexample: shift held, empty region at 5, track content 0..3,
selection 1..2.  The claim's flat chain clears the region (start 5 is at or
beyond t1 = 3), but the code skips the `else if` rules inside the
shift-and-empty branch and leaves the region standing. -/
theorem handleQPRelease_clear_counterexample :
    specClearsFlat true 0 3 1 2 ⟨5, 5, false⟩ = true ∧
    HandleQPReleaseClears true 0 3 1 2 ⟨5, 5, false⟩ = false ∧
    HandleQPReleaseRegion true 0 3 1 2 ⟨5, 5, false⟩ = ⟨5, 5, false⟩ := by
  refine ⟨?_, ?_, ?_⟩ <;>
    norm_num [specClearsFlat, HandleQPReleaseClears, HandleQPReleaseRegion,
      PlayRegion.Empty, PlayRegion.Order, PlayRegion.SetTimes]

/-- C2 (amended): the region is cleared exactly under these conditions on
the ordered region: when shift is held and the region is empty, cleared
iff both the selection and the region start lie outside the track content;
only when not in that shift-and-empty case, cleared iff the start is at or
beyond the track end, or the region is non-empty with its start before the
track end and its end before the track start. -/
theorem handleQPRelease_clear_amended (shiftDown : Bool)
    (t0 t1 sel0 sel1 : Time) (r : PlayRegion) :
    HandleQPReleaseClears shiftDown t0 t1 sel0 sel1 r = true ↔
      (((shiftDown && r.Empty) = true ∧
          ((sel1 < t0 ∨ sel0 > t1) ∧ (r.start < t0 ∨ r.start > t1))) ∨
       ((shiftDown && r.Empty) = false ∧ t1 ≤ r.start) ∨
       ((shiftDown && r.Empty) = false ∧ r.start < t1 ∧
          0 < r.stop - r.start ∧ r.stop < t0)) := by
  unfold HandleQPReleaseClears
  cases hb : (shiftDown && r.Empty) <;> simp [hb]
  by_cases h1 : t1 ≤ r.start
  · simp [h1]
  · simp [h1, not_le.mp h1]

/-! ## The quick-play gesture state machine

Panel state touched by the quick-play mouse handlers, with the external
view transform, snapping and selection collaborators supplied as function
parameters. -/

/-- The `MouseEventState` enumeration of the panel. -/
inductive MouseEventState where
  | mesNone
  | mesDraggingPlayRegionStart
  | mesDraggingPlayRegionEnd
  | mesSelectingPlayRegionClick
  | mesSelectingPlayRegionRange
deriving DecidableEq

/-- The panel fields read and written by the quick-play gesture code. -/
structure RulerState where
  playRegion : PlayRegion
  selectedRegion : SelectedRegion
  mOldPlayRegion : PlayRegion
  mMouseEventState : MouseEventState
  mQuickPlayPos : Time
  mQuickPlayPosUnsnapped : Time
  mLeftDownClick : Time
  mLeftDownClickUnsnapped : Time
  mIsDragging : Bool
  mIsSnapped : Bool
  mPlayRegionDragsSelection : Bool
deriving DecidableEq

/-- External context of one mouse event: the view transform pair, the
usable track area, the snap engine (which may consult the selection), the
track bounds, and the hit state that gates the end-of-project clamp. -/
structure ViewContext where
  leftOffset : Pixel
  tracksUsableWidth : Pixel
  pos2Time : Pixel → Time
  time2Pos : Time → Pixel
  snap : SelectedRegion → Time → Time × Bool
  trackEndTime : Time
  lastCellIsQPCell : Bool
  qpCellClicked : Bool

/-- Translation of `AdornedRulerPanel::SetPlayRegion`: external requests to
move the play region are dropped while a gesture session is live. -/
def SetPlayRegion (s : RulerState) (playRegionStart playRegionEnd : Time) :
    RulerState :=
  if s.mMouseEventState ≠ MouseEventState.mesNone then s
  else { s with playRegion :=
    s.playRegion.SetTimes playRegionStart playRegionEnd }

/-- Translation of `AdornedRulerPanel::DragSelection`: mirror the play
region bounds onto the selection (the `setT0`/`setT1` collaborators of
`SelectedRegion` are modelled from the spec as plain assignment of the
mirrored bounds). -/
def DragSelection (s : RulerState) : RulerState :=
  { s with selectedRegion := ⟨s.playRegion.start, s.playRegion.stop⟩ }

/-- Modelled from the spec: `SelectUtilities::InactivatePlayRegion`
temporarily deactivates the play region for the gesture. -/
def InactivatePlayRegion (s : RulerState) : RulerState :=
  { s with playRegion := s.playRegion.SetActive false }

/-- Modelled from the spec: `SelectUtilities::ActivatePlayRegion`
re-activates the play region. -/
def ActivatePlayRegion (s : RulerState) : RulerState :=
  { s with playRegion := s.playRegion.SetActive true }

/-- Translation of `AdornedRulerPanel::HandleQPClick`.  `mOldPlayRegion`
has already been set to the committed region by the caller
(`QPHandle::Click`). -/
def HandleQPClick (time2Pos : Time → Pixel) (evtLeftDown : Bool)
    (mousePosX : Pixel) (s : RulerState) : RulerState :=
  let s1 := if s.mOldPlayRegion.active && evtLeftDown then
      InactivatePlayRegion s
    else s
  let s2 := { s1 with
    mLeftDownClickUnsnapped := s1.mQuickPlayPosUnsnapped,
    mLeftDownClick := s1.mQuickPlayPos }
  let isWithinStart :=
    IsWithinMarker time2Pos mousePosX s2.mOldPlayRegion.start
  let isWithinEnd :=
    IsWithinMarker time2Pos mousePosX s2.mOldPlayRegion.stop
  if isWithinStart || isWithinEnd then
    if s2.mOldPlayRegion.Empty then
      { s2 with mMouseEventState := MouseEventState.mesSelectingPlayRegionClick }
    else
      if |time2Pos s2.mQuickPlayPos - time2Pos s2.mOldPlayRegion.start| <
         |time2Pos s2.mQuickPlayPos - time2Pos s2.mOldPlayRegion.stop| then
        { s2 with mMouseEventState := MouseEventState.mesDraggingPlayRegionStart }
      else
        { s2 with mMouseEventState := MouseEventState.mesDraggingPlayRegionEnd }
  else
    { s2 with mMouseEventState := MouseEventState.mesSelectingPlayRegionClick }

/-- Translation of `AdornedRulerPanel::HandleQPDrag` (the redraw calls at
its end carry no state here). -/
def HandleQPDrag (time2Pos : Time → Pixel) (mousePosX : Pixel)
    (s : RulerState) : RulerState :=
  let isWithinClick := decide (0 ≤ s.mLeftDownClickUnsnapped) &&
    IsWithinMarker time2Pos mousePosX s.mLeftDownClickUnsnapped
  let isWithinStart :=
    IsWithinMarker time2Pos mousePosX s.mOldPlayRegion.start
  let isWithinEnd :=
    IsWithinMarker time2Pos mousePosX s.mOldPlayRegion.stop
  let canDragSel := !s.mOldPlayRegion.active && s.mPlayRegionDragsSelection
  match s.mMouseEventState with
  | MouseEventState.mesNone =>
      if isWithinStart || isWithinEnd then
        if |s.mQuickPlayPos - s.mOldPlayRegion.start| <
            |s.mQuickPlayPos - s.mOldPlayRegion.stop| then
          { s with mQuickPlayPos := s.mOldPlayRegion.start }
        else
          { s with mQuickPlayPos := s.mOldPlayRegion.stop }
      else s
  | MouseEventState.mesDraggingPlayRegionStart =>
      let s1 :=
        if !s.mIsDragging && isWithinStart then
          { s with mQuickPlayPos := s.mOldPlayRegion.start }
        else { s with mIsDragging := true }
      let s2 := if isWithinEnd then
          { s1 with mQuickPlayPos := s1.mOldPlayRegion.stop }
        else s1
      let s3 := { s2 with playRegion := s2.playRegion.SetStart s2.mQuickPlayPos }
      if canDragSel then DragSelection s3 else s3
  | MouseEventState.mesDraggingPlayRegionEnd =>
      let s1 :=
        if !s.mIsDragging && isWithinEnd then
          { s with mQuickPlayPos := s.mOldPlayRegion.stop }
        else { s with mIsDragging := true }
      let s2 := if isWithinStart then
          { s1 with mQuickPlayPos := s1.mOldPlayRegion.start }
        else s1
      let s3 := { s2 with playRegion := s2.playRegion.SetEnd s2.mQuickPlayPos }
      if canDragSel then DragSelection s3 else s3
  | MouseEventState.mesSelectingPlayRegionClick =>
      if isWithinClick || decide (s.mLeftDownClick = -1) then
        { s with
          mQuickPlayPos := s.mLeftDownClick,
          playRegion := s.playRegion.SetTimes s.mLeftDownClick s.mLeftDownClick }
      else
        { s with mMouseEventState := MouseEventState.mesSelectingPlayRegionRange }
  | MouseEventState.mesSelectingPlayRegionRange =>
      let s1 := if isWithinClick then { s with mQuickPlayPos := s.mLeftDownClick }
        else s
      let s2 :=
        if s1.mQuickPlayPos < s1.mLeftDownClick then
          { s1 with playRegion :=
            s1.playRegion.SetTimes s1.mQuickPlayPos s1.mLeftDownClick }
        else
          { s1 with playRegion :=
            s1.playRegion.SetTimes s1.mLeftDownClick s1.mQuickPlayPos }
      if canDragSel then DragSelection s2 else s2

/-- Translation of `AdornedRulerPanel::UpdateQuickPlayPos`.  The mouse x is
clamped into the usable track area (the source clamps the caller's
variable by reference, so the clamped value is also returned), the
quick-play time is recomputed through the view transform, snapped against
the selection, and clamped to the track end unless shift is down. -/
def UpdateQuickPlayPos (ctx : ViewContext) (mousePosX : Pixel)
    (shiftDown : Bool) (s : RulerState) : Pixel × RulerState :=
  let x1 := max mousePosX ctx.leftOffset
  let x2 := min x1 (ctx.leftOffset + ctx.tracksUsableWidth - 1)
  let t := ctx.pos2Time x2
  let s1 := { s with mQuickPlayPosUnsnapped := t, mQuickPlayPos := t }
  let results := ctx.snap s1.selectedRegion s1.mQuickPlayPos
  let s2 := { s1 with mQuickPlayPos := results.1, mIsSnapped := results.2 }
  let s3 :=
    if (ctx.lastCellIsQPCell || ctx.qpCellClicked) && !shiftDown then
      { s2 with mQuickPlayPos := min ctx.trackEndTime s2.mQuickPlayPos }
    else s2
  (x2, s3)

/-- The gesture-session data of a `QPHandle`: its click column and the
selection snapshot taken at mouse-down. -/
structure QPHandle where
  mX : Pixel
  mOldSelection : SelectedRegion
deriving DecidableEq

/-- Translation of `QPHandle::Click` for a left button press: snapshot the
committed play region into `mOldPlayRegion` and the selection into the
handle, then run `HandleQPClick` and a first `HandleQPDrag` at the click
column. -/
def QPHandleClick (ctx : ViewContext) (x : Pixel) (s : RulerState) :
    RulerState × QPHandle :=
  let handle : QPHandle := { mX := x, mOldSelection := s.selectedRegion }
  let s1 := { s with mOldPlayRegion := s.playRegion }
  let s2 := HandleQPClick ctx.time2Pos true x s1
  let s3 := HandleQPDrag ctx.time2Pos x s2
  (s3, handle)

/-- Translation of `QPHandle::Drag` for a left-button session: refresh the
quick-play position from the new mouse column (which the source clamps in
place) and run `HandleQPDrag` at the clamped column. -/
def QPHandleDrag (ctx : ViewContext) (x : Pixel) (shiftDown : Bool)
    (s : RulerState) : RulerState :=
  let p := UpdateQuickPlayPos ctx x shiftDown s
  HandleQPDrag ctx.time2Pos p.1 p.2

/-- Translation of `QPHandle::Cancel` for a left-button session: restore
the selection snapshot, end the session, restore the play region bounds
from the panel snapshot (the guarded `SetPlayRegion` applies because the
session state was just reset), and re-activate the region when the
snapshot had been active, releasing the local lock on the snapshot. -/
def QPHandleCancel (h : QPHandle) (s : RulerState) : RulerState :=
  let s1 := { s with selectedRegion := h.mOldSelection }
  let s2 := { s1 with mMouseEventState := MouseEventState.mesNone }
  let s3 := SetPlayRegion s2 s2.mOldPlayRegion.start s2.mOldPlayRegion.stop
  if s3.mOldPlayRegion.active then
    let s4 := ActivatePlayRegion s3
    { s4 with mOldPlayRegion := s4.mOldPlayRegion.SetActive false }
  else s3

/-- One drag move of a gesture: its own external context (the view may
scroll or zoom between moves), mouse column and shift state. -/
structure DragMove where
  ctx : ViewContext
  x : Pixel
  shiftDown : Bool

/-- Fold a list of drag moves over the state. -/
def runDrags (moves : List DragMove) (s : RulerState) : RulerState :=
  moves.foldl (fun s m => QPHandleDrag m.ctx m.x m.shiftDown s) s

/-- C5: while a gesture session is live the guarded `SetPlayRegion` call
leaves the whole state unchanged; only with no live session does it set
the region's times to the given bounds. -/
theorem setPlayRegion_guard (s : RulerState) (a b : Time) :
    (s.mMouseEventState ≠ MouseEventState.mesNone →
      SetPlayRegion s a b = s) ∧
    (s.mMouseEventState = MouseEventState.mesNone →
      SetPlayRegion s a b =
        { s with playRegion := { s.playRegion with start := a, stop := b } }) := by
  constructor
  · intro h
    simp [SetPlayRegion, h]
  · intro h
    simp [SetPlayRegion, h, PlayRegion.SetTimes]

/-- A state with a live selecting session, for witnesses. -/
def midGestureState : RulerState :=
  { playRegion := ⟨1, 2, false⟩, selectedRegion := ⟨0, 0⟩,
    mOldPlayRegion := ⟨0, 0, false⟩,
    mMouseEventState := MouseEventState.mesSelectingPlayRegionRange,
    mQuickPlayPos := 0, mQuickPlayPosUnsnapped := 0, mLeftDownClick := -1,
    mLeftDownClickUnsnapped := -1, mIsDragging := false, mIsSnapped := false,
    mPlayRegionDragsSelection := false }

/-- The same state with no live session, for witnesses. -/
def idleState : RulerState :=
  { midGestureState with mMouseEventState := MouseEventState.mesNone }

/-- Witness for C5: a mid-gesture call is dropped whole, an idle call sets
the times. -/
theorem setPlayRegion_guard_witness :
    SetPlayRegion midGestureState 7 9 = midGestureState ∧
    SetPlayRegion idleState 7 9 =
      { idleState with
        playRegion := { idleState.playRegion with start := 7, stop := 9 } } :=
  ⟨(setPlayRegion_guard midGestureState 7 9).1 (by decide),
   (setPlayRegion_guard idleState 7 9).2 (by decide)⟩

/-! ## Scrub zone mouse-down: `ScrubbingHandle::Click` -/

/-- Outcome of a scrub-zone click: the gesture is cancelled, a scrub start
is marked with the external scrubber, or nothing happens. -/
inductive ScrubClickOutcome where
  | cancelled
  | marked (xx : Pixel) (pinned : Bool) (seek : Bool)
  | noEffect
deriving DecidableEq

/-- Translation of `ScrubbingHandle::Click`.  The base
`CommonRulerHandle::Click` never cancels; on a left press, scrubbing must
be permitted now (the scrubber's `CanScrub`, a live parent and a showing
scrub ruler), else the click is cancelled; then `MarkScrubStart` is issued
only when the scrubber has no mark yet, passing the event's pixel column,
the pinned preference, and seek = false. -/
def ScrubbingHandleClick (leftIsDown canScrub parentPresent
    showingScrubRuler hasMark shouldScrubPinned : Bool) (eventX : Pixel) :
    ScrubClickOutcome :=
  if leftIsDown then
    let canScrubNow := canScrub && parentPresent && showingScrubRuler
    if !canScrubNow then ScrubClickOutcome.cancelled
    else if !hasMark then
      ScrubClickOutcome.marked eventX shouldScrubPinned false
    else ScrubClickOutcome.noEffect
  else ScrubClickOutcome.noEffect

/-- C7: a left scrub-zone click is cancelled with no scrubber effect when
scrubbing is not permitted; when it is permitted, `MarkScrubStart` is
issued with the click column and pin flag exactly when no mark exists. -/
theorem scrubbingHandleClick_policy (leftIsDown canScrub parentPresent
    showingScrubRuler hasMark shouldScrubPinned : Bool) (eventX : Pixel) :
    (leftIsDown = true →
      (canScrub && parentPresent && showingScrubRuler) = false →
      ScrubbingHandleClick leftIsDown canScrub parentPresent
        showingScrubRuler hasMark shouldScrubPinned eventX =
        ScrubClickOutcome.cancelled) ∧
    (leftIsDown = true →
      (canScrub && parentPresent && showingScrubRuler) = true →
      (ScrubbingHandleClick leftIsDown canScrub parentPresent
          showingScrubRuler hasMark shouldScrubPinned eventX =
        ScrubClickOutcome.marked eventX shouldScrubPinned false ↔
        hasMark = false)) := by
  constructor
  · intro h1 h2
    simp [ScrubbingHandleClick, h1, h2]
  · intro h1 h2
    cases hasMark <;> simp [ScrubbingHandleClick, h1, h2]

/-- Witness for C7: a forbidden click cancels; a permitted unmarked click
marks scrub start at the click column. -/
theorem scrubbingHandleClick_policy_witness :
    ScrubbingHandleClick true false true true false true 12 =
      ScrubClickOutcome.cancelled ∧
    (ScrubbingHandleClick true true true true false true 12 =
      ScrubClickOutcome.marked 12 true false ↔ false = false) :=
  ⟨(scrubbingHandleClick_policy true false true true false true 12).1
      rfl (by decide),
   (scrubbingHandleClick_policy true true true true false true 12).2
      rfl (by decide)⟩

/-- C3: on a left mouse-down within marker tolerance of an edge of the
committed region, an empty region yields the click-pending state; a
nonempty region yields dragging of whichever edge is nearer in pixels
(ties to the end edge); a mouse-down away from both edges yields the
click-pending state with the anchor recorded from the quick-play
position of the click. -/
theorem handleQPClick_transition (t2p : Time → Pixel) (x : Pixel)
    (s : RulerState) :
    ((IsWithinMarker t2p x s.mOldPlayRegion.start ||
        IsWithinMarker t2p x s.mOldPlayRegion.stop) = true →
      (s.mOldPlayRegion.Empty = true →
        (HandleQPClick t2p true x s).mMouseEventState =
          MouseEventState.mesSelectingPlayRegionClick) ∧
      (s.mOldPlayRegion.Empty = false →
        ((HandleQPClick t2p true x s).mMouseEventState =
            MouseEventState.mesDraggingPlayRegionStart ↔
          |t2p s.mQuickPlayPos - t2p s.mOldPlayRegion.start| <
            |t2p s.mQuickPlayPos - t2p s.mOldPlayRegion.stop|) ∧
        ((HandleQPClick t2p true x s).mMouseEventState =
            MouseEventState.mesDraggingPlayRegionEnd ↔
          ¬ |t2p s.mQuickPlayPos - t2p s.mOldPlayRegion.start| <
            |t2p s.mQuickPlayPos - t2p s.mOldPlayRegion.stop|))) ∧
    ((IsWithinMarker t2p x s.mOldPlayRegion.start ||
        IsWithinMarker t2p x s.mOldPlayRegion.stop) = false →
      (HandleQPClick t2p true x s).mMouseEventState =
        MouseEventState.mesSelectingPlayRegionClick ∧
      (HandleQPClick t2p true x s).mLeftDownClick = s.mQuickPlayPos) := by
  constructor
  · intro hw
    constructor
    · intro he
      cases hact : s.mOldPlayRegion.active <;>
        simp [HandleQPClick, InactivatePlayRegion, PlayRegion.SetActive,
          hact, hw, he]
    · intro he
      cases hact : s.mOldPlayRegion.active <;>
        by_cases hd : |t2p s.mQuickPlayPos - t2p s.mOldPlayRegion.start| <
          |t2p s.mQuickPlayPos - t2p s.mOldPlayRegion.stop| <;>
        simp [HandleQPClick, InactivatePlayRegion, PlayRegion.SetActive,
          hact, hw, he, hd]
  · intro hw
    cases hact : s.mOldPlayRegion.active <;>
      simp [HandleQPClick, InactivatePlayRegion, PlayRegion.SetActive,
        hact, hw]

/-- A state with a committed nonempty region 2..10, pointer at time 2, for
the C3 witness. -/
def clickState : RulerState :=
  { playRegion := ⟨2, 10, false⟩, selectedRegion := ⟨0, 0⟩,
    mOldPlayRegion := ⟨2, 10, false⟩,
    mMouseEventState := MouseEventState.mesNone,
    mQuickPlayPos := 2, mQuickPlayPosUnsnapped := 2, mLeftDownClick := -1,
    mLeftDownClickUnsnapped := -1, mIsDragging := false, mIsSnapped := false,
    mPlayRegionDragsSelection := false }

/-- Witness for C3: a click at pixel 2 on the nonempty region 2..10 is
within tolerance of the start edge, which is pixel-nearer, so the session
drags the start. -/
theorem handleQPClick_transition_witness :
    (HandleQPClick (fun t => t.num) true 2 clickState).mMouseEventState =
      MouseEventState.mesDraggingPlayRegionStart :=
  ((((handleQPClick_transition (fun t => t.num) 2 clickState).1
      (by norm_num [IsWithinMarker, SELECT_TOLERANCE_PIXEL, clickState])).2
      (by norm_num [PlayRegion.Empty, clickState])).1).mpr
    (by norm_num [clickState])

/-- Two play regions with equal fields are equal. -/
theorem playRegion_eq (a b : PlayRegion) (h1 : a.start = b.start)
    (h2 : a.stop = b.stop) (h3 : a.active = b.active) : a = b := by
  cases a
  cases b
  simp_all

/-- `HandleQPClick` never changes the committed-region snapshot field. -/
theorem handleQPClick_mOld (t2p : Time → Pixel) (l : Bool) (x : Pixel)
    (s : RulerState) :
    (HandleQPClick t2p l x s).mOldPlayRegion = s.mOldPlayRegion := by
  unfold HandleQPClick InactivatePlayRegion PlayRegion.SetActive
  dsimp only
  split_ifs <;> rfl

/-- After a left `HandleQPClick` on a state whose play region and snapshot
agree on activity, the play region is inactive: either the click
deactivated it for the gesture or it already was inactive. -/
theorem handleQPClick_active (t2p : Time → Pixel) (x : Pixel)
    (s : RulerState) (h : s.playRegion.active = s.mOldPlayRegion.active) :
    (HandleQPClick t2p true x s).playRegion.active = false := by
  unfold HandleQPClick InactivatePlayRegion PlayRegion.SetActive
  dsimp only
  split_ifs <;> simp_all

/-- `HandleQPDrag` preserves the snapshot field and the play region's
active flag: drag moves only rewrite the region's bounds. -/
theorem handleQPDrag_pres (t2p : Time → Pixel) (x : Pixel) (s : RulerState) :
    (HandleQPDrag t2p x s).mOldPlayRegion = s.mOldPlayRegion ∧
    (HandleQPDrag t2p x s).playRegion.active = s.playRegion.active := by
  obtain ⟨pr, sel, old, mes, qp, qpu, ldc, ldcu, dragging, snapped, drags⟩ := s
  cases mes <;>
    (unfold HandleQPDrag DragSelection PlayRegion.SetStart PlayRegion.SetEnd
      PlayRegion.SetTimes <;>
     dsimp only <;>
     split_ifs <;> exact ⟨rfl, rfl⟩)

/-- `UpdateQuickPlayPos` touches only the quick-play time fields. -/
theorem updateQuickPlayPos_pres (ctx : ViewContext) (x : Pixel) (sh : Bool)
    (s : RulerState) :
    ((UpdateQuickPlayPos ctx x sh s).2).mOldPlayRegion = s.mOldPlayRegion ∧
    ((UpdateQuickPlayPos ctx x sh s).2).playRegion = s.playRegion := by
  unfold UpdateQuickPlayPos
  dsimp only
  split_ifs <;> exact ⟨rfl, rfl⟩

/-- One whole drag step preserves the snapshot and the region's activity. -/
theorem qpHandleDrag_pres (ctx : ViewContext) (x : Pixel) (sh : Bool)
    (s : RulerState) :
    (QPHandleDrag ctx x sh s).mOldPlayRegion = s.mOldPlayRegion ∧
    (QPHandleDrag ctx x sh s).playRegion.active = s.playRegion.active := by
  unfold QPHandleDrag
  dsimp only
  obtain ⟨h1, h2⟩ := updateQuickPlayPos_pres ctx x sh s
  obtain ⟨h3, h4⟩ := handleQPDrag_pres ctx.time2Pos
    (UpdateQuickPlayPos ctx x sh s).1 (UpdateQuickPlayPos ctx x sh s).2
  exact ⟨h3.trans h1, h4.trans (by rw [h2])⟩

/-- Any number of drag moves preserves the snapshot and the region's
activity. -/
theorem runDrags_pres (moves : List DragMove) (s : RulerState) :
    (runDrags moves s).mOldPlayRegion = s.mOldPlayRegion ∧
    (runDrags moves s).playRegion.active = s.playRegion.active := by
  induction moves generalizing s with
  | nil => exact ⟨rfl, rfl⟩
  | cons m ms ih =>
      have h1 := qpHandleDrag_pres m.ctx m.x m.shiftDown s
      have h2 := ih (QPHandleDrag m.ctx m.x m.shiftDown s)
      simp only [runDrags, List.foldl_cons] at h2 ⊢
      exact ⟨h2.1.trans h1.1, h2.2.trans h1.2⟩

/-- The left mouse-down step snapshots the selection into the handle and
the committed region into the panel, and leaves the region inactive for
the span of the gesture. -/
theorem qpHandleClick_facts (ctx : ViewContext) (x : Pixel) (s : RulerState) :
    (QPHandleClick ctx x s).2.mOldSelection = s.selectedRegion ∧
    ((QPHandleClick ctx x s).1).mOldPlayRegion = s.playRegion ∧
    ((QPHandleClick ctx x s).1).playRegion.active = false := by
  unfold QPHandleClick
  dsimp only
  refine ⟨rfl, ?_, ?_⟩
  · rw [(handleQPDrag_pres ctx.time2Pos x _).1, handleQPClick_mOld]
  · rw [(handleQPDrag_pres ctx.time2Pos x _).2]
    exact handleQPClick_active ctx.time2Pos x _ rfl

/-- Field values of the cancel step: selection from the handle snapshot,
session ended, bounds from the panel snapshot, re-activation exactly when
the snapshot was active. -/
theorem qpHandleCancel_fields (h : QPHandle) (s : RulerState) :
    (QPHandleCancel h s).selectedRegion = h.mOldSelection ∧
    (QPHandleCancel h s).mMouseEventState = MouseEventState.mesNone ∧
    (QPHandleCancel h s).playRegion.start = s.mOldPlayRegion.start ∧
    (QPHandleCancel h s).playRegion.stop = s.mOldPlayRegion.stop ∧
    (QPHandleCancel h s).playRegion.active =
      (if s.mOldPlayRegion.active then true else s.playRegion.active) := by
  cases hb : s.mOldPlayRegion.active <;>
    simp [QPHandleCancel, SetPlayRegion, ActivatePlayRegion,
      PlayRegion.SetActive, PlayRegion.SetTimes, hb]

/-- C6: for any left mouse-down followed by any drag moves followed by
cancel, the committed selection and play region are restored exactly to
the session-start snapshots, the session state returns to none, and an
active snapshot region is re-activated. -/
theorem qpCancel_restores_snapshot (ctx : ViewContext) (x : Pixel)
    (moves : List DragMove) (s : RulerState) :
    (QPHandleCancel (QPHandleClick ctx x s).2
        (runDrags moves (QPHandleClick ctx x s).1)).selectedRegion =
      s.selectedRegion ∧
    (QPHandleCancel (QPHandleClick ctx x s).2
        (runDrags moves (QPHandleClick ctx x s).1)).playRegion =
      s.playRegion ∧
    (QPHandleCancel (QPHandleClick ctx x s).2
        (runDrags moves (QPHandleClick ctx x s).1)).mMouseEventState =
      MouseEventState.mesNone ∧
    (s.playRegion.active = true →
      (QPHandleCancel (QPHandleClick ctx x s).2
          (runDrags moves (QPHandleClick ctx x s).1)).playRegion.active =
        true) := by
  obtain ⟨hsel, hold, hact⟩ := qpHandleClick_facts ctx x s
  obtain ⟨hRold, hRact⟩ := runDrags_pres moves (QPHandleClick ctx x s).1
  obtain ⟨c1, c2, c3, c4, c5⟩ := qpHandleCancel_fields
    (QPHandleClick ctx x s).2 (runDrags moves (QPHandleClick ctx x s).1)
  rw [hold] at hRold
  rw [hact] at hRact
  rw [hRold] at c3 c4 c5
  rw [hsel] at c1
  rw [hRact] at c5
  refine ⟨c1, ?_, c2, ?_⟩
  · refine playRegion_eq _ _ c3 c4 ?_
    rw [c5]
    cases hpa : s.playRegion.active <;> simp [hpa]
  · intro hpa
    rw [c5, hpa]
    simp

/-- A gesture context with simple view transforms, for the C6 witness. -/
def cancelCtx : ViewContext :=
  { leftOffset := 0, tracksUsableWidth := 100,
    pos2Time := fun p => (p : ℚ), time2Pos := fun t => t.num,
    snap := fun _ t => (t, false), trackEndTime := 10,
    lastCellIsQPCell := true, qpCellClicked := false }

/-- A committed state with an active loop region 1..5 and selection 2..4,
for the C6 witness. -/
def cancelState : RulerState :=
  { playRegion := ⟨1, 5, true⟩, selectedRegion := ⟨2, 4⟩,
    mOldPlayRegion := ⟨0, 0, false⟩,
    mMouseEventState := MouseEventState.mesNone,
    mQuickPlayPos := 3, mQuickPlayPosUnsnapped := 3, mLeftDownClick := -1,
    mLeftDownClickUnsnapped := -1, mIsDragging := false, mIsSnapped := false,
    mPlayRegionDragsSelection := true }

/-- Two drag moves for the C6 witness. -/
def cancelMoves : List DragMove :=
  [⟨cancelCtx, 7, false⟩, ⟨cancelCtx, 9, true⟩]

/-- Witness for C6 at a concrete gesture: click at column 3, drag to 7 and
9, cancel; everything is restored and the region re-activated. -/
theorem qpCancel_restores_snapshot_witness :
    (QPHandleCancel (QPHandleClick cancelCtx 3 cancelState).2
        (runDrags cancelMoves
          (QPHandleClick cancelCtx 3 cancelState).1)).selectedRegion =
      cancelState.selectedRegion ∧
    (QPHandleCancel (QPHandleClick cancelCtx 3 cancelState).2
        (runDrags cancelMoves
          (QPHandleClick cancelCtx 3 cancelState).1)).playRegion =
      cancelState.playRegion ∧
    (QPHandleCancel (QPHandleClick cancelCtx 3 cancelState).2
        (runDrags cancelMoves
          (QPHandleClick cancelCtx 3 cancelState).1)).playRegion.active =
      true :=
  ⟨(qpCancel_restores_snapshot cancelCtx 3 cancelMoves cancelState).1,
   (qpCancel_restores_snapshot cancelCtx 3 cancelMoves cancelState).2.1,
   (qpCancel_restores_snapshot cancelCtx 3 cancelMoves cancelState).2.2.2
     rfl⟩

end AdornedRuler
